import Mathlib

/-!
# cudaDeviceManager (toolboxes/core/gpu/cudaDeviceManager.cpp)

A shallow embedding of the Gadgetron device manager.  The CUDA runtime and the
cuBLAS library are external: every call into them is answered by an `Env`
(what the runtime answers during one operation) and recorded in the trace of
the `Runtime`.  Device ordinals, handles (pointers, `0` is `NULL`) and sizes
are natural numbers; an ordinal at or above the length of a vector stands for
every `int` that indexes outside it, and reading or writing there is undefined
behaviour.
-/

namespace Gadgetron

/-- The fields of `cudaDeviceProp` that the manager reads. -/
structure cudaDeviceProp where
  warpSize : Int
  maxThreadsDim : Int × Int × Int
  maxGridSize : Int × Int × Int
  major : Int
  minor : Int
  deriving DecidableEq, Repr

/-- One call into the CUDA runtime, cuBLAS or libc, as it is issued. -/
inductive Call where
  | atexit
  | cudaGetDeviceCount
  | cudaGetDevice
  | cudaSetDevice (device : Nat)
  | cudaGetDeviceProperties (device : Nat)
  | cudaMemGetInfo
  | cublasCreate (slot : Nat)
  | cublasSetPointerMode (handle : Nat)
  | cublasDestroy (handle : Nat)
  deriving DecidableEq, Repr

/-- The exceptions the manager throws. -/
inductive Exn where
  | cuda_error (what : String)
  | runtime_error (what : String)
  deriving DecidableEq, Repr

/-- What the external libraries answer during one operation of the manager.
`none` or `false` stand for a status other than `cudaSuccess`.
`cudaSetDevice n d` is the answer to the `n`-th `cudaSetDevice` call of the
operation (counted from zero), made with argument `d`.
`cublasCreate` is the status (`0` is `CUBLAS_STATUS_SUCCESS`) and the handle the
library stores through its out-parameter on success; with another status the
library leaves the out-parameter as it was. -/
structure Env where
  cudaGetDeviceCount : Option Nat
  cudaGetDevice : Bool
  cudaSetDevice : Nat → Nat → Bool
  cudaGetDeviceProperties : Nat → Option cudaDeviceProp
  cudaMemGetInfo : Option (Nat × Nat)
  cublasCreate : Nat × Nat
  cudaGetErrorString : String
  gadgetron_getCublasErrorString : Nat → String

/-- The state owned by the CUDA runtime: the current device of the calling
thread, and the calls issued so far, oldest first. -/
structure Runtime where
  current : Nat
  trace : List Call
  deriving DecidableEq, Repr

/-- Record one call in the trace. -/
def Runtime.call (rt : Runtime) (c : Call) : Runtime :=
  { rt with trace := rt.trace ++ [c] }

/-- The data members of `cudaDeviceManager`.  `_mutex[d]` is `true` while the
mutex of device `d` is held; `_handle[d] = 0` is the null handle. -/
structure cudaDeviceManager where
  _num_devices : Nat
  _mutex : List Bool
  _warp_size : List Int
  _max_blockdim : List Int
  _max_griddim : List Int
  _major : List Int
  _minor : List Int
  _handle : List Nat
  deriving DecidableEq, Repr

/-- A constructed manager together with the runtime it talks to. -/
structure State where
  mgr : cudaDeviceManager
  rt : Runtime
  deriving DecidableEq, Repr

/-- The process: the static `_instance` pointer and the runtime. -/
structure Process where
  _instance : Option cudaDeviceManager
  rt : Runtime
  deriving DecidableEq, Repr

/-- The outcome of a call: it returns a value, throws, blocks forever on a held
mutex, or has undefined behaviour (an index outside a vector, unlocking a
mutex that is not held). -/
inductive Result (σ α : Type) where
  | ret (v : α) (s : σ)
  | thrown (e : Exn) (s : σ)
  | blocked
  | undefined
  deriving DecidableEq, Repr

/-- Modelled from the spec: the macro `CUDA_CALL` of check_CUDA.h, which is not
among the sources; it turns a native call that does not report success into a
thrown `cuda_error`. -/
def CUDA_CALL {σ α : Type} (env : Env) (ok : Bool) (s : σ) (k : Result σ α) : Result σ α :=
  if ok then k else Result.thrown (Exn.cuda_error env.cudaGetErrorString) s

/-- The loop of the constructor, lines 39-56: `remaining` iterations are left
and `device` is the loop variable. -/
def ctorLoop (env : Env) : Nat → Nat → cudaDeviceManager → Runtime → Result Runtime cudaDeviceManager
  | 0, _, m, rt => Result.ret m rt
  | remaining + 1, device, m, rt =>
    let rt1 := rt.call (Call.cudaSetDevice device)
    if env.cudaSetDevice device device then
      let rt2 := ({ rt1 with current := device } : Runtime).call (Call.cudaGetDeviceProperties device)
      match env.cudaGetDeviceProperties device with
      | none => Result.thrown (Exn.cuda_error "Error: unable to determine device properties.") rt2
      | some deviceProp =>
        ctorLoop env remaining (device + 1)
          { m with
            _warp_size := m._warp_size.set device deviceProp.warpSize
            _max_blockdim := m._max_blockdim.set device deviceProp.maxThreadsDim.1
            _max_griddim := m._max_griddim.set device deviceProp.maxGridSize.1
            _major := m._major.set device deviceProp.major
            _minor := m._minor.set device deviceProp.minor }
          rt2
    else Result.thrown (Exn.cuda_error "Error: unable to set device no") rt1

/-- The manager as the constructor has it before its loop, lines 25-37. -/
def freshManager (n : Nat) : cudaDeviceManager :=
  { _num_devices := n
    _mutex := List.replicate n false
    _warp_size := List.replicate n 0
    _max_blockdim := List.replicate n 0
    _max_griddim := List.replicate n 0
    _major := List.replicate n 0
    _minor := List.replicate n 0
    _handle := List.replicate n 0 }

/-- The constructor `cudaDeviceManager::cudaDeviceManager()`. -/
def ctor (env : Env) (rt : Runtime) : Result Runtime cudaDeviceManager :=
  let rt1 := (rt.call Call.atexit).call Call.cudaGetDeviceCount
  match env.cudaGetDeviceCount with
  | none => Result.thrown (Exn.cuda_error "Error: no Cuda devices present.") rt1
  | some n =>
    let rt2 := rt1.call Call.cudaGetDevice
    if env.cudaGetDevice then
      let old_device := rt2.current
      match ctorLoop env n 0 (freshManager n) rt2 with
      | Result.ret m rt3 =>
        let rt4 := rt3.call (Call.cudaSetDevice old_device)
        if env.cudaSetDevice n old_device then
          Result.ret m { rt4 with current := old_device }
        else Result.thrown (Exn.cuda_error "Error: unable to restore device no") rt4
      | Result.thrown e rt3 => Result.thrown e rt3
      | Result.blocked => Result.blocked
      | Result.undefined => Result.undefined
    else Result.thrown (Exn.runtime_error "Error: unable to get device no") rt2

/-- The loop of the destructor, lines 68-71. -/
def dtorLoop : Nat → Nat → cudaDeviceManager → Runtime → Result Runtime Unit
  | 0, _, _, rt => Result.ret () rt
  | remaining + 1, device, m, rt =>
    match m._handle[device]? with
    | none => Result.undefined
    | some h =>
      if h ≠ 0 then dtorLoop remaining (device + 1) m (rt.call (Call.cublasDestroy h))
      else dtorLoop remaining (device + 1) m rt

/-- The destructor `cudaDeviceManager::~cudaDeviceManager()`. -/
def dtor (m : cudaDeviceManager) (rt : Runtime) : Result Runtime Unit :=
  dtorLoop m._num_devices 0 m rt

/-- The body shared by the five capability accessors, lines 74-107: ask the
runtime for the current device and read the vector there. -/
def readCurrent (env : Env) (field : cudaDeviceManager → List Int) (s : State) : Result State Int :=
  let s1 : State := { s with rt := s.rt.call Call.cudaGetDevice }
  CUDA_CALL env env.cudaGetDevice s1
    (match (field s.mgr)[s1.rt.current]? with
     | none => Result.undefined
     | some v => Result.ret v s1)

/-- Accessor `cudaDeviceManager::max_blockdim()`. -/
def max_blockdim (env : Env) (s : State) : Result State Int :=
  readCurrent env (fun m => m._max_blockdim) s

/-- Accessor `cudaDeviceManager::max_griddim()`. -/
def max_griddim (env : Env) (s : State) : Result State Int :=
  readCurrent env (fun m => m._max_griddim) s

/-- Accessor `cudaDeviceManager::warp_size()`. -/
def warp_size (env : Env) (s : State) : Result State Int :=
  readCurrent env (fun m => m._warp_size) s

/-- Accessor `cudaDeviceManager::major_version()`. -/
def major_version (env : Env) (s : State) : Result State Int :=
  readCurrent env (fun m => m._major) s

/-- Accessor `cudaDeviceManager::minor_version()`. -/
def minor_version (env : Env) (s : State) : Result State Int :=
  readCurrent env (fun m => m._minor) s

/-- The body shared by `getFreeMemory()` and `getTotalMemory()`, lines 109-121. -/
def memGetInfo (env : Env) (pick : Nat × Nat → Nat) (s : State) : Result State Nat :=
  let s1 : State := { s with rt := s.rt.call Call.cudaMemGetInfo }
  match env.cudaMemGetInfo with
  | none => Result.thrown (Exn.cuda_error env.cudaGetErrorString) s1
  | some info => Result.ret (pick info) s1

/-- Method `cudaDeviceManager::getFreeMemory()`. -/
def getFreeMemory0 (env : Env) (s : State) : Result State Nat :=
  memGetInfo env Prod.fst s

/-- Method `cudaDeviceManager::getTotalMemory()`. -/
def getTotalMemory0 (env : Env) (s : State) : Result State Nat :=
  memGetInfo env Prod.snd s

/-- The body shared by `getFreeMemory(int)` and `getTotalMemory(int)`, lines
123-141: save the current device, select `device`, query, select the saved
device again. -/
def memOnDevice (env : Env) (query : Env → State → Result State Nat) (device : Nat) (s : State) :
    Result State Nat :=
  let s1 : State := { s with rt := s.rt.call Call.cudaGetDevice }
  CUDA_CALL env env.cudaGetDevice s1
    (let oldDevice := s1.rt.current
     let s2 : State := { s1 with rt := s1.rt.call (Call.cudaSetDevice device) }
     CUDA_CALL env (env.cudaSetDevice 0 device) s2
       (let s3 : State := { s2 with rt := { s2.rt with current := device } }
        match query env s3 with
        | Result.ret r s4 =>
          let s5 : State := { s4 with rt := s4.rt.call (Call.cudaSetDevice oldDevice) }
          CUDA_CALL env (env.cudaSetDevice 1 oldDevice) s5
            (Result.ret r { s5 with rt := { s5.rt with current := oldDevice } })
        | other => other))

/-- Method `cudaDeviceManager::getFreeMemory(int device)`. -/
def getFreeMemory (env : Env) (device : Nat) (s : State) : Result State Nat :=
  memOnDevice env getFreeMemory0 device s

/-- Method `cudaDeviceManager::getTotalMemory(int device)`. -/
def getTotalMemory (env : Env) (device : Nat) (s : State) : Result State Nat :=
  memOnDevice env getTotalMemory0 device s

/-- Method `cudaDeviceManager::getCurrentDevice()`. -/
def getCurrentDevice (env : Env) (s : State) : Result State Nat :=
  let s1 : State := { s with rt := s.rt.call Call.cudaGetDevice }
  CUDA_CALL env env.cudaGetDevice s1 (Result.ret s1.rt.current s1)

/-- The text thrown when `cublasCreate` does not succeed, lines 162-165. -/
def createErrorText (env : Env) (device : Nat) (ret : Nat) : String :=
  "Error: unable to create cublas handle for device " ++ toString device ++ " : "
    ++ env.gadgetron_getCublasErrorString ret ++ "\n"

/-- Method `cudaDeviceManager::lockHandle(int device)`. -/
def lockHandle (env : Env) (device : Nat) (s : State) : Result State Nat :=
  match s.mgr._mutex[device]? with
  | none => Result.undefined
  | some true => Result.blocked
  | some false =>
    let m1 : cudaDeviceManager := { s.mgr with _mutex := s.mgr._mutex.set device true }
    match m1._handle[device]? with
    | none => Result.undefined
    | some h =>
      if h = 0 then
        let rt1 := s.rt.call (Call.cublasCreate device)
        let ret := env.cublasCreate.1
        if ret ≠ 0 then
          Result.thrown (Exn.cuda_error (createErrorText env device ret)) { mgr := m1, rt := rt1 }
        else
          let m2 : cudaDeviceManager := { m1 with _handle := m1._handle.set device env.cublasCreate.2 }
          Result.ret env.cublasCreate.2
            { mgr := m2, rt := rt1.call (Call.cublasSetPointerMode env.cublasCreate.2) }
      else Result.ret h { mgr := m1, rt := s.rt }

/-- Method `cudaDeviceManager::lockHandle()`. -/
def lockHandle0 (env : Env) (s : State) : Result State Nat :=
  let s1 : State := { s with rt := s.rt.call Call.cudaGetDevice }
  CUDA_CALL env env.cudaGetDevice s1 (lockHandle env s1.rt.current s1)

/-- Method `cudaDeviceManager::unlockHandle(int device)`. -/
def unlockHandle (device : Nat) (s : State) : Result State Unit :=
  match s.mgr._mutex[device]? with
  | some true => Result.ret () { s with mgr := { s.mgr with _mutex := s.mgr._mutex.set device false } }
  | _ => Result.undefined

/-- Method `cudaDeviceManager::unlockHandle()`. -/
def unlockHandle0 (env : Env) (s : State) : Result State Unit :=
  let s1 : State := { s with rt := s.rt.call Call.cudaGetDevice }
  CUDA_CALL env env.cudaGetDevice s1 (unlockHandle s1.rt.current s1)

/-- The statement `_instance = new cudaDeviceManager;` of line 145, run while
`_instance` is null: the pointer is assigned only when the constructor returns. -/
def newInstance (env : Env) (rt : Runtime) : Result Process cudaDeviceManager :=
  match ctor env rt with
  | Result.ret m rt1 => Result.ret m { _instance := some m, rt := rt1 }
  | Result.thrown e rt1 => Result.thrown e { _instance := none, rt := rt1 }
  | Result.blocked => Result.blocked
  | Result.undefined => Result.undefined

/-- Static method `cudaDeviceManager::Instance()`. -/
def Instance (env : Env) (p : Process) : Result Process cudaDeviceManager :=
  match p._instance with
  | some m => Result.ret m p
  | none => newInstance env p.rt

/-- Static method `cudaDeviceManager::CleanUp()`: `delete _instance; _instance = 0;`. -/
def CleanUp (p : Process) : Result Process Unit :=
  match p._instance with
  | none => Result.ret () { p with _instance := none }
  | some m =>
    match dtor m p.rt with
    | Result.ret _ rt => Result.ret () { _instance := none, rt := rt }
    | Result.thrown e rt => Result.thrown e { _instance := some m, rt := rt }
    | Result.blocked => Result.blocked
    | Result.undefined => Result.undefined

/-! ## Call sequences used to state the properties -/

/-- One `lockHandle(device)` followed, when it returns, by `unlockHandle(device)`;
the value is the handle that `lockHandle` returned. -/
def lockUnlock (env : Env) (device : Nat) (s : State) : Result State Nat :=
  match lockHandle env device s with
  | Result.ret h s1 =>
    match unlockHandle device s1 with
    | Result.ret _ s2 => Result.ret h s2
    | Result.thrown e s2 => Result.thrown e s2
    | Result.blocked => Result.blocked
    | Result.undefined => Result.undefined
  | other => other

/-- Run `lockHandle(device); unlockHandle(device)` `n` times in sequence, the
`i`-th round against the runtime behaviour `envs i`; the value lists the handles
returned, oldest first. -/
def lockUnlockN (envs : Nat → Env) (device : Nat) : Nat → State → Result State (List Nat)
  | 0, s => Result.ret [] s
  | n + 1, s =>
    match lockUnlockN envs device n s with
    | Result.ret hs s1 =>
      match lockUnlock (envs n) device s1 with
      | Result.ret h s2 => Result.ret (hs ++ [h]) s2
      | Result.thrown e s2 => Result.thrown e s2
      | Result.blocked => Result.blocked
      | Result.undefined => Result.undefined
    | other => other

/-- The calls a client makes on a constructed manager between construction and
teardown. -/
inductive Op where
  | lockHandle (device : Nat)
  | lockHandle0
  | unlockHandle (device : Nat)
  | unlockHandle0
  | getFreeMemory (device : Nat)
  | getFreeMemory0
  | getTotalMemory (device : Nat)
  | getTotalMemory0
  deriving DecidableEq, Repr

/-- The state a call leaves behind, whether it returns or throws; a call that
blocks forever or has undefined behaviour leaves none. -/
def Result.after {σ α : Type} : Result σ α → Option σ
  | Result.ret _ s => some s
  | Result.thrown _ s => some s
  | Result.blocked => none
  | Result.undefined => none

/-- Make one client call and keep the state it leaves. -/
def callOp (env : Env) : Op → State → Option State
  | Op.lockHandle d, s => (lockHandle env d s).after
  | Op.lockHandle0, s => (lockHandle0 env s).after
  | Op.unlockHandle d, s => (unlockHandle d s).after
  | Op.unlockHandle0, s => (unlockHandle0 env s).after
  | Op.getFreeMemory d, s => (getFreeMemory env d s).after
  | Op.getFreeMemory0, s => (getFreeMemory0 env s).after
  | Op.getTotalMemory d, s => (getTotalMemory env d s).after
  | Op.getTotalMemory0, s => (getTotalMemory0 env s).after

/-- Make a sequence of client calls, each against its own runtime behaviour. -/
def runOps : List (Env × Op) → State → Option State
  | [], s => some s
  | (env, op) :: rest, s =>
    match callOp env op s with
    | none => none
    | some s1 => runOps rest s1

/-- The capability data of a manager: the device count and the five vectors. -/
def capabilities (m : cudaDeviceManager) : Nat × List Int × List Int × List Int × List Int × List Int :=
  (m._num_devices, m._warp_size, m._max_blockdim, m._max_griddim, m._major, m._minor)

/-- What the constructor loop does to one vector: `remaining` iterations from
`device` on, each storing field `f` of the properties reported for the ordinal. -/
def fillFrom (env : Env) (f : cudaDeviceProp → Int) : Nat → Nat → List Int → List Int
  | 0, _, l => l
  | remaining + 1, device, l =>
    match env.cudaGetDeviceProperties device with
    | none => l
    | some p => fillFrom env f remaining (device + 1) (l.set device (f p))

/-! ## Two threads sharing one device -/

/-- Where a thread that calls `lockHandle(d)` and later `unlockHandle(d)` is:
before the call, back from `lockHandle` with the handle it returned, out of
`lockHandle` by an exception, or after its `unlockHandle`. -/
inductive Pc where
  | idle
  | holding (h : Nat)
  | failed
  | done
  deriving DecidableEq, Repr

/-- Whether a thread at this point has acquired the mutex and not released it. -/
def Pc.owns : Pc → Bool
  | Pc.holding _ => true
  | Pc.failed => true
  | _ => false

/-- Whether a thread has returned from `lockHandle` and not yet called
`unlockHandle`. -/
def Pc.inWindow : Pc → Bool
  | Pc.holding _ => true
  | _ => false

/-- Two threads (named `false` and `true`) over one shared manager; `ub` records
that a call with undefined behaviour was made. -/
structure Threads where
  shared : State
  pc0 : Pc
  pc1 : Pc
  ub : Bool
  deriving DecidableEq, Repr

/-- The point thread `t` is at. -/
def Threads.pc (c : Threads) (t : Bool) : Pc :=
  if t then c.pc1 else c.pc0

/-- The next call of a thread at point `q`, over the shared state `s`: an idle
thread calls `lockHandle(d)` (and stays where it is while the call blocks), a
thread out of `lockHandle` calls `unlockHandle(d)`, a finished thread does
nothing.  The result is the point the thread reaches, the shared state, and
whether the call had undefined behaviour.  The body of `lockHandle` after
`_mutex[d].lock()` runs under the mutex, so the call is one step. -/
def callNext (env : Env) (d : Nat) (q : Pc) (s : State) : Pc × State × Bool :=
  match q with
  | Pc.idle =>
    match lockHandle env d s with
    | Result.ret h s1 => (Pc.holding h, s1, false)
    | Result.thrown _ s1 => (Pc.failed, s1, false)
    | Result.blocked => (Pc.idle, s, false)
    | Result.undefined => (Pc.idle, s, true)
  | Pc.holding h =>
    match unlockHandle d s with
    | Result.ret _ s1 => (Pc.done, s1, false)
    | _ => (Pc.holding h, s, true)
  | Pc.failed =>
    match unlockHandle d s with
    | Result.ret _ s1 => (Pc.done, s1, false)
    | _ => (Pc.failed, s, true)
  | Pc.done => (Pc.done, s, false)

/-- Thread `t` is scheduled and makes its next call. -/
def threadStep (env : Env) (d : Nat) (t : Bool) (c : Threads) : Threads :=
  if t then
    { shared := (callNext env d c.pc1 c.shared).2.1
      pc0 := c.pc0
      pc1 := (callNext env d c.pc1 c.shared).1
      ub := c.ub || (callNext env d c.pc1 c.shared).2.2 }
  else
    { shared := (callNext env d c.pc0 c.shared).2.1
      pc0 := (callNext env d c.pc0 c.shared).1
      pc1 := c.pc1
      ub := c.ub || (callNext env d c.pc0 c.shared).2.2 }

/-- Run an interleaving: the schedule names, step by step, the thread that runs
and what the runtime answers during that step. -/
def runThreads (d : Nat) : List (Bool × Env) → Threads → Threads
  | [], c => c
  | (t, env) :: rest, c => runThreads d rest (threadStep env d t c)

/-- Both threads before their `lockHandle(d)`. -/
def Threads.start (s : State) : Threads :=
  { shared := s, pc0 := Pc.idle, pc1 := Pc.idle, ub := false }

/-! ## Concrete runtimes -/

/-- Properties of a device with warp size 32 and compute capability 7.5. -/
def sampleProp : cudaDeviceProp :=
  { warpSize := 32, maxThreadsDim := (1024, 1024, 64), maxGridSize := (2147483647, 65535, 65535),
    major := 7, minor := 5 }

/-- A runtime with two devices on which every call succeeds. -/
def envOk : Env :=
  { cudaGetDeviceCount := some 2
    cudaGetDevice := true
    cudaSetDevice := fun _ _ => true
    cudaGetDeviceProperties := fun _ => some sampleProp
    cudaMemGetInfo := some (100, 200)
    cublasCreate := (0, 7)
    cudaGetErrorString := "unspecified launch failure"
    gadgetron_getCublasErrorString := fun _ => "CUBLAS_STATUS_ALLOC_FAILED" }

/-- A runtime with a single device on which every call succeeds. -/
def envOne : Env := { envOk with cudaGetDeviceCount := some 1 }

/-- A runtime whose device-count query fails. -/
def envNoCount : Env := { envOk with cudaGetDeviceCount := none }

/-- A runtime whose device-count query succeeds and reports zero devices. -/
def envZero : Env := { envOk with cudaGetDeviceCount := some 0 }

/-- A runtime whose property query fails for ordinal 1. -/
def envPropFail : Env :=
  { envOk with cudaGetDeviceProperties := fun d => if d = 1 then none else some sampleProp }

/-- A runtime that refuses the third `cudaSetDevice` call of an operation. -/
def envRestoreFail : Env := { envOk with cudaSetDevice := fun n _ => decide (n ≠ 2) }

/-- A runtime whose memory query fails. -/
def envMemFail : Env := { envOk with cudaMemGetInfo := none }

/-- A runtime whose `cublasCreate` reports status 3. -/
def envCreateFail : Env := { envOk with cublasCreate := (3, 0) }

/-- A runtime with current device 0 and no call made yet. -/
def rt0 : Runtime := { current := 0, trace := [] }

/-- The manager a construction over two devices produces. -/
def mgr2 : cudaDeviceManager :=
  { _num_devices := 2
    _mutex := [false, false]
    _warp_size := [32, 32]
    _max_blockdim := [1024, 1024]
    _max_griddim := [2147483647, 2147483647]
    _major := [7, 7]
    _minor := [5, 5]
    _handle := [0, 0] }

/-- The manager `mgr2` with current device 0. -/
def state2 : State := { mgr := mgr2, rt := rt0 }

/-- The manager a construction over one device produces. -/
def mgrOne : cudaDeviceManager :=
  { _num_devices := 1
    _mutex := [false]
    _warp_size := [32]
    _max_blockdim := [1024]
    _max_griddim := [2147483647]
    _major := [7]
    _minor := [5]
    _handle := [0] }

/-- The runtime after a construction over one device, started from `rt0`. -/
def rtOne : Runtime :=
  { current := 0
    trace := [Call.atexit, Call.cudaGetDeviceCount, Call.cudaGetDevice, Call.cudaSetDevice 0,
              Call.cudaGetDeviceProperties 0, Call.cudaSetDevice 0] }

/-- A client that locks device 0, asks for its total memory, unlocks it, and
then asks for the free memory while the memory query fails. -/
def opsOne : List (Env × Op) :=
  [(envOk, Op.lockHandle 0), (envOk, Op.getTotalMemory 0), (envOk, Op.unlockHandle 0),
   (envMemFail, Op.getFreeMemory0)]

/-- The state the calls of `opsOne` reach after the construction over one device. -/
def stateOne : State :=
  { mgr := { mgrOne with _handle := [7] }
    rt := { current := 0
            trace := rtOne.trace ++
              [Call.cublasCreate 0, Call.cublasSetPointerMode 7, Call.cudaGetDevice,
               Call.cudaSetDevice 0, Call.cudaMemGetInfo, Call.cudaSetDevice 0,
               Call.cudaMemGetInfo] } }

/-! ## Invariant of the two-thread system -/

/-- The mutex of `d` is held exactly while one of the two threads owns it, at
most one thread owns it, and no call with undefined behaviour was made. -/
def Threads.consistent (d : Nat) (c : Threads) : Prop :=
  c.ub = false ∧ d < c.shared.mgr._handle.length ∧
  c.shared.mgr._mutex[d]? = some (c.pc0.owns || c.pc1.owns) ∧
  (c.pc0.owns && c.pc1.owns) = false

/-! # Theorems -/

/-! ## The constructor loop -/

theorem ctorLoop_fill (env : Env) : ∀ (k device : Nat) (m m' : cudaDeviceManager) (rt rt' : Runtime),
    ctorLoop env k device m rt = Result.ret m' rt' →
    m' = { m with
           _warp_size := fillFrom env (fun p => p.warpSize) k device m._warp_size
           _max_blockdim := fillFrom env (fun p => p.maxThreadsDim.1) k device m._max_blockdim
           _max_griddim := fillFrom env (fun p => p.maxGridSize.1) k device m._max_griddim
           _major := fillFrom env (fun p => p.major) k device m._major
           _minor := fillFrom env (fun p => p.minor) k device m._minor } := by
  intro k
  induction k with
  | zero =>
    intro device m m' rt rt' h
    simp only [ctorLoop, Result.ret.injEq] at h
    simp [fillFrom, ← h.1]
  | succ k ih =>
    intro device m m' rt rt' h
    simp only [ctorLoop] at h
    split at h
    · cases hp : env.cudaGetDeviceProperties device with
      | none => simp [hp] at h
      | some p =>
        simp only [hp] at h
        have := ih _ _ _ _ _ h
        simp [this, fillFrom, hp]
    · simp at h

theorem ctorLoop_ret_ok (env : Env) : ∀ (k device : Nat) (m m' : cudaDeviceManager) (rt rt' : Runtime),
    ctorLoop env k device m rt = Result.ret m' rt' →
    ∀ j, device ≤ j → j < device + k →
      env.cudaSetDevice j j = true ∧ ∃ p, env.cudaGetDeviceProperties j = some p := by
  intro k
  induction k with
  | zero => intro device m m' rt rt' _ j h1 h2; omega
  | succ k ih =>
    intro device m m' rt rt' h j h1 h2
    simp only [ctorLoop] at h
    split at h
    · rename_i hset
      cases hp : env.cudaGetDeviceProperties device with
      | none => simp [hp] at h
      | some p =>
        simp only [hp] at h
        by_cases hj : j = device
        · subst hj; exact ⟨hset, p, hp⟩
        · exact ih _ _ _ _ _ h j (by omega) (by omega)
    · simp at h

theorem ctorLoop_ok (env : Env) : ∀ (k device : Nat) (m : cudaDeviceManager) (rt : Runtime),
    (∀ j, device ≤ j → j < device + k →
      env.cudaSetDevice j j = true ∧ ∃ p, env.cudaGetDeviceProperties j = some p) →
    ∃ m' rt', ctorLoop env k device m rt = Result.ret m' rt' := by
  intro k
  induction k with
  | zero => intro device m rt _; exact ⟨m, rt, rfl⟩
  | succ k ih =>
    intro device m rt h
    obtain ⟨hset, p, hp⟩ := h device (le_refl _) (by omega)
    simp only [ctorLoop, hset, hp, if_true]
    exact ih _ _ _ (fun j h1 h2 => h j (by omega) (by omega))

theorem ctorLoop_independent (env : Env) : ∀ (k device : Nat) (m m' : cudaDeviceManager) (rt rt' rt2 : Runtime),
    ctorLoop env k device m rt = Result.ret m' rt' →
    ∃ rt2', ctorLoop env k device m rt2 = Result.ret m' rt2' := by
  intro k
  induction k with
  | zero =>
    intro device m m' rt rt' rt2 h
    simp only [ctorLoop, Result.ret.injEq] at h
    exact ⟨rt2, by simp [ctorLoop, h.1]⟩
  | succ k ih =>
    intro device m m' rt rt' rt2 h
    simp only [ctorLoop] at h ⊢
    split at h
    · rename_i hset
      cases hp : env.cudaGetDeviceProperties device with
      | none => simp [hp] at h
      | some p =>
        simp only [hp] at h
        simp only [hset, if_true]
        exact ih _ _ _ _ _ _ h
    · simp at h

theorem ctorLoop_fails_at (env : Env) : ∀ (n device : Nat) (m : cudaDeviceManager) (rt : Runtime) (k : Nat),
    device ≤ k → k < device + n →
    (∀ j, device ≤ j → j < k →
      env.cudaSetDevice j j = true ∧ ∃ p, env.cudaGetDeviceProperties j = some p) →
    env.cudaSetDevice k k = true → env.cudaGetDeviceProperties k = none →
    ∃ pre, rt.trace <+: pre ∧ ctorLoop env n device m rt =
      Result.thrown (Exn.cuda_error "Error: unable to determine device properties.")
        { current := k, trace := pre ++ [Call.cudaSetDevice k, Call.cudaGetDeviceProperties k] } := by
  intro n
  induction n with
  | zero => intro device m rt k h1 h2; omega
  | succ n ih =>
    intro device m rt k h1 h2 hprev hset hprop
    by_cases hk : k = device
    · subst hk
      refine ⟨rt.trace, List.prefix_refl _, ?_⟩
      simp [ctorLoop, hset, hprop, Runtime.call]
    · obtain ⟨hs, p, hp⟩ := hprev device (le_refl _) (by omega)
      simp only [ctorLoop, hs, hp, if_true]
      obtain ⟨pre, hpre, hrun⟩ := ih (device + 1) _
        (({ rt.call (Call.cudaSetDevice device) with current := device } : Runtime).call
          (Call.cudaGetDeviceProperties device)) k (by omega) (by omega)
        (fun j h1 h2 => hprev j (by omega) h2) hset hprop
      refine ⟨pre, ?_, hrun⟩
      refine List.IsPrefix.trans ?_ hpre
      simp [Runtime.call]

theorem ctorLoop_fails (env : Env) : ∀ (n device : Nat) (m : cudaDeviceManager) (rt : Runtime),
    (∃ k, device ≤ k ∧ k < device + n ∧
      (env.cudaSetDevice k k = false ∨ env.cudaGetDeviceProperties k = none)) →
    ∃ what rt', ctorLoop env n device m rt = Result.thrown (Exn.cuda_error what) rt' := by
  intro n
  induction n with
  | zero => intro device m rt ⟨k, h1, h2, _⟩; omega
  | succ n ih =>
    intro device m rt ⟨k, h1, h2, hk⟩
    simp only [ctorLoop]
    cases hset : env.cudaSetDevice device device with
    | false => exact ⟨_, _, if_neg (by simp)⟩
    | true =>
      simp only [if_true]
      cases hp : env.cudaGetDeviceProperties device with
      | none => exact ⟨_, _, rfl⟩
      | some p =>
        have hne : k ≠ device := by
          rintro rfl
          rcases hk with hk | hk
          · rw [hset] at hk; cases hk
          · rw [hp] at hk; cases hk
        exact ih _ _ _ ⟨k, by omega, by omega, hk⟩

theorem ctorLoop_current (env : Env) : ∀ (k device : Nat) (m m' : cudaDeviceManager) (rt rt' : Runtime),
    ctorLoop env k device m rt = Result.ret m' rt' →
    rt'.current = if k = 0 then rt.current else device + k - 1 := by
  intro k
  induction k with
  | zero =>
    intro device m m' rt rt' h
    simp only [ctorLoop, Result.ret.injEq] at h
    simp [h.2]
  | succ k ih =>
    intro device m m' rt rt' h
    simp only [ctorLoop] at h
    split at h
    · cases hp : env.cudaGetDeviceProperties device with
      | none => simp [hp] at h
      | some p =>
        simp only [hp] at h
        have := ih _ _ _ _ _ h
        rw [this]
        by_cases hk : k = 0
        · simp [hk, Runtime.call]
        · simp [hk]
    · simp at h


theorem fillFrom_length (env : Env) (f : cudaDeviceProp → Int) : ∀ (k device : Nat) (l : List Int),
    (fillFrom env f k device l).length = l.length := by
  intro k
  induction k with
  | zero => intro device l; rfl
  | succ k ih =>
    intro device l
    simp only [fillFrom]
    cases env.cudaGetDeviceProperties device with
    | none => rfl
    | some p => simp [ih]

theorem fillFrom_getElem? (env : Env) (f : cudaDeviceProp → Int) : ∀ (k device : Nat) (l : List Int) (i : Nat),
    (∀ j, device ≤ j → j < device + k → ∃ p, env.cudaGetDeviceProperties j = some p) →
    (fillFrom env f k device l)[i]? =
      if device ≤ i ∧ i < device + k ∧ i < l.length then (env.cudaGetDeviceProperties i).map f
      else l[i]? := by
  intro k
  induction k with
  | zero =>
    intro device l i _
    have : ¬ (device ≤ i ∧ i < device + 0 ∧ i < l.length) := by omega
    rw [if_neg this]; rfl
  | succ k ih =>
    intro device l i h
    obtain ⟨p, hp⟩ := h device (le_refl _) (by omega)
    simp only [fillFrom, hp]
    rw [ih (device + 1) _ i (fun j h1 h2 => h j (by omega) (by omega))]
    by_cases hi : i = device
    · subst hi
      have h1 : ¬ (i + 1 ≤ i ∧ i < i + 1 + k ∧ i < (l.set i (f p)).length) := by omega
      rw [if_neg h1]
      by_cases hl : i < l.length
      · have h2 : i ≤ i ∧ i < i + (k + 1) ∧ i < l.length := ⟨le_refl _, by omega, hl⟩
        rw [if_pos h2, hp]
        simp [List.getElem?_set, hl]
      · have h2 : ¬ (i ≤ i ∧ i < i + (k + 1) ∧ i < l.length) := fun h => hl h.2.2
        rw [if_neg h2]
        simp [List.getElem?_set, hl]
        omega
    · have hne : device ≠ i := fun h => hi h.symm
      rw [List.getElem?_set_ne hne, List.length_set]
      by_cases hc : device + 1 ≤ i ∧ i < device + 1 + k ∧ i < l.length
      · rw [if_pos hc, if_pos ⟨by omega, by omega, hc.2.2⟩]
      · rw [if_neg hc, if_neg (fun h => hc ⟨by omega, by omega, h.2.2⟩)]

theorem ctorLoop_trace (env : Env) : ∀ (k device : Nat) (m m' : cudaDeviceManager) (rt rt' : Runtime),
    ctorLoop env k device m rt = Result.ret m' rt' →
    rt.trace <+: rt'.trace ∧
      ∀ j, device ≤ j → j < device + k → Call.cudaSetDevice j ∈ rt'.trace := by
  intro k
  induction k with
  | zero =>
    intro device m m' rt rt' h
    simp only [ctorLoop, Result.ret.injEq] at h
    refine ⟨by rw [h.2], fun j h1 h2 => by omega⟩
  | succ k ih =>
    intro device m m' rt rt' h
    simp only [ctorLoop] at h
    split at h
    · cases hp : env.cudaGetDeviceProperties device with
      | none => simp [hp] at h
      | some p =>
        simp only [hp] at h
        obtain ⟨hpre, hmem⟩ := ih _ _ _ _ _ h
        have hpre1 : rt.trace ++ [Call.cudaSetDevice device] <+: rt'.trace := by
          refine List.IsPrefix.trans ?_ hpre
          simp [Runtime.call]
        refine ⟨List.IsPrefix.trans (List.prefix_append _ _) hpre1, fun j h1 h2 => ?_⟩
        by_cases hj : j = device
        · subst hj
          exact hpre1.subset (by simp)
        · exact hmem j (by omega) (by omega)
    · simp at h


/-- What a successful construction over `n` devices leaves in the manager. -/
theorem ctor_ret_spec (env : Env) (rt rt' : Runtime) (m : cudaDeviceManager) (n : Nat)
    (hc : env.cudaGetDeviceCount = some n) (h : ctor env rt = Result.ret m rt') :
    m._num_devices = n ∧ m._mutex = List.replicate n false ∧ m._handle = List.replicate n 0 ∧
    ∀ d, d < n → ∃ p, env.cudaGetDeviceProperties d = some p ∧
      m._warp_size[d]? = some p.warpSize ∧ m._max_blockdim[d]? = some p.maxThreadsDim.1 ∧
      m._max_griddim[d]? = some p.maxGridSize.1 ∧ m._major[d]? = some p.major ∧
      m._minor[d]? = some p.minor := by
  simp only [ctor, hc] at h
  split at h
  · cases hl : ctorLoop env n 0 (freshManager n) ((rt.call Call.atexit).call Call.cudaGetDeviceCount |>.call Call.cudaGetDevice) with
    | ret m1 rt1 =>
      simp only [hl] at h
      split at h
      · simp only [Result.ret.injEq] at h
        have hm : m1 = m := h.1
        subst hm
        have hfill := ctorLoop_fill env _ _ _ _ _ _ hl
        have hok := ctorLoop_ret_ok env _ _ _ _ _ _ hl
        have hsome : ∀ j, 0 ≤ j → j < 0 + n → ∃ p, env.cudaGetDeviceProperties j = some p :=
          fun j h1 h2 => (hok j h1 h2).2
        refine ⟨by rw [hfill]; rfl, by rw [hfill]; rfl, by rw [hfill]; rfl, fun d hd => ?_⟩
        obtain ⟨p, hp⟩ := hsome d (Nat.zero_le _) (by omega)
        have hcond : 0 ≤ d ∧ d < 0 + n ∧ d < (List.replicate n (0 : Int)).length := by
          simp; omega
        refine ⟨p, hp, ?_, ?_, ?_, ?_, ?_⟩ <;>
          · rw [hfill]
            simp only [freshManager]
            rw [fillFrom_getElem? env _ n 0 _ d hsome, if_pos hcond, hp]
            rfl
      · simp at h
    | thrown e rt1 => simp [hl] at h
    | blocked => simp [hl] at h
    | undefined => simp [hl] at h
  · simp at h

/-- When every query succeeds the constructor returns, and the manager it
builds does not depend on the runtime state it starts from. -/
theorem ctor_ok (env : Env) (n : Nat) (hc : env.cudaGetDeviceCount = some n)
    (hg : env.cudaGetDevice = true) (hset : ∀ i d, env.cudaSetDevice i d = true)
    (hprops : ∀ j, j < n → ∃ q, env.cudaGetDeviceProperties j = some q) :
    ∃ m, ∀ rt, ∃ rt', ctor env rt = Result.ret m rt' ∧ rt'.current = rt.current := by
  obtain ⟨m, rt1, hl⟩ := ctorLoop_ok env n 0 (freshManager n) rt0
    (fun j _ h2 => ⟨hset j j, hprops j (by omega)⟩)
  refine ⟨m, fun rt => ?_⟩
  obtain ⟨rt2, hl2⟩ := ctorLoop_independent env n 0 _ _ _ _
    ((rt.call Call.atexit).call Call.cudaGetDeviceCount |>.call Call.cudaGetDevice) hl
  refine ⟨{ rt2.call (Call.cudaSetDevice rt.current) with current := rt.current }, ?_, rfl⟩
  simp only [ctor, hc, hg, if_true, hl2, hset]
  rfl


/-! ## Construction through `Instance()` -/

/-- C5, as amended: when the device-count query fails, the first `Instance()`
throws `cuda_error` with the text "Error: no Cuda devices present.", leaves
`_instance` null and the current device as it was, and the next `Instance()`
runs the construction again. -/
theorem Instance_count_query_fails (env : Env) (p : Process) (hp : p._instance = none)
    (hc : env.cudaGetDeviceCount = none) :
    ∃ p', Instance env p = Result.thrown (Exn.cuda_error "Error: no Cuda devices present.") p' ∧
      p'._instance = none ∧ p'.rt.current = p.rt.current ∧
      ∀ env2, Instance env2 p' = newInstance env2 p'.rt := by
  refine ⟨{ _instance := none,
            rt := (p.rt.call Call.atexit).call Call.cudaGetDeviceCount }, ?_, rfl, rfl, fun env2 => rfl⟩
  simp [Instance, hp, newInstance, ctor, hc]

theorem Instance_count_query_fails_witness :
    ∃ p', Instance envNoCount { _instance := none, rt := rt0 } =
        Result.thrown (Exn.cuda_error "Error: no Cuda devices present.") p' ∧
      p'._instance = none ∧ p'.rt.current = rt0.current ∧
      ∀ env2, Instance env2 p' = newInstance env2 p'.rt :=
  Instance_count_query_fails envNoCount { _instance := none, rt := rt0 } rfl rfl

/-- C5, the claim as stated fails: on a runtime whose device-count query
succeeds and reports zero devices, the first `Instance()` returns a manager
with no slots and sets `_instance`; it does not throw. -/
theorem Instance_zero_devices_returns :
    envZero.cudaGetDeviceCount = some 0 ∧
    Instance envZero { _instance := none, rt := rt0 } =
      Result.ret (freshManager 0)
        { _instance := some (freshManager 0),
          rt := { current := 0,
                  trace := [Call.atexit, Call.cudaGetDeviceCount, Call.cudaGetDevice,
                            Call.cudaSetDevice 0] } } ∧
    ¬ ∃ e p', Instance envZero { _instance := none, rt := rt0 } = Result.thrown e p' := by
  refine ⟨rfl, rfl, ?_⟩
  rintro ⟨e, p', h⟩
  have h2 : Instance envZero { _instance := none, rt := rt0 } =
      Result.ret (freshManager 0)
        { _instance := some (freshManager 0),
          rt := { current := 0,
                  trace := [Call.atexit, Call.cudaGetDeviceCount, Call.cudaGetDevice,
                            Call.cudaSetDevice 0] } } := rfl
  rw [h2] at h
  cases h

/-- C6: over `n ≥ 1` devices, when `cudaSetDevice(k)` or
`cudaGetDeviceProperties` for an ordinal `k < n` fails during construction,
`Instance()` throws `cuda_error` and `_instance` stays null; a following
`Instance()` on a runtime where every query succeeds returns the manager that a
first construction on that runtime produces from any starting state: `n`
slots, every mutex free, every handle null, every capability entry the one the
runtime reports now. -/
theorem construction_is_atomic (env env2 : Env) (p : Process) (n k : Nat)
    (hp : p._instance = none) (hn : 1 ≤ n)
    (hc : env.cudaGetDeviceCount = some n) (hg : env.cudaGetDevice = true) (hk : k < n)
    (hfail : env.cudaSetDevice k k = false ∨ env.cudaGetDeviceProperties k = none)
    (hc2 : env2.cudaGetDeviceCount = some n) (hg2 : env2.cudaGetDevice = true)
    (hset2 : ∀ i d, env2.cudaSetDevice i d = true)
    (hprops2 : ∀ j, j < n → ∃ q, env2.cudaGetDeviceProperties j = some q) :
    ∃ what p', Instance env p = Result.thrown (Exn.cuda_error what) p' ∧ p'._instance = none ∧
      ∃ m p'', Instance env2 p' = Result.ret m p'' ∧ p''._instance = some m ∧
        (∀ q : Process, q._instance = none → ∃ q', Instance env2 q = Result.ret m q') ∧
        m._num_devices = n ∧ m._mutex = List.replicate n false ∧
        m._handle = List.replicate n 0 ∧
        ∀ d, d < n → ∃ pr, env2.cudaGetDeviceProperties d = some pr ∧
          m._warp_size[d]? = some pr.warpSize ∧ m._max_blockdim[d]? = some pr.maxThreadsDim.1 ∧
          m._max_griddim[d]? = some pr.maxGridSize.1 ∧ m._major[d]? = some pr.major ∧
          m._minor[d]? = some pr.minor := by
  have _ := hn
  obtain ⟨what, rt1, hl⟩ := ctorLoop_fails env n 0 (freshManager n)
    ((p.rt.call Call.atexit).call Call.cudaGetDeviceCount |>.call Call.cudaGetDevice)
    ⟨k, Nat.zero_le _, by omega, hfail⟩
  obtain ⟨m, hm⟩ := ctor_ok env2 n hc2 hg2 hset2 hprops2
  obtain ⟨rt2, hrun, _⟩ := hm rt1
  refine ⟨what, { _instance := none, rt := rt1 }, ?_, rfl, m, { _instance := some m, rt := rt2 },
    ?_, rfl, ?_, ctor_ret_spec env2 rt1 rt2 m n hc2 hrun⟩
  · simp only [Instance, hp, newInstance, ctor, hc, hg, if_true, hl]
  · simp only [Instance, newInstance, hrun]
  · intro q hq
    obtain ⟨rt3, hrun3, _⟩ := hm q.rt
    exact ⟨{ _instance := some m, rt := rt3 }, by simp only [Instance, hq, newInstance, hrun3]⟩

theorem construction_is_atomic_witness :
    ∃ what p', Instance envPropFail { _instance := none, rt := rt0 } =
        Result.thrown (Exn.cuda_error what) p' ∧ p'._instance = none ∧
      ∃ m p'', Instance envOk p' = Result.ret m p'' ∧ p''._instance = some m ∧
        (∀ q : Process, q._instance = none → ∃ q', Instance envOk q = Result.ret m q') ∧
        m._num_devices = 2 ∧ m._mutex = List.replicate 2 false ∧
        m._handle = List.replicate 2 0 ∧
        ∀ d, d < 2 → ∃ pr, envOk.cudaGetDeviceProperties d = some pr ∧
          m._warp_size[d]? = some pr.warpSize ∧ m._max_blockdim[d]? = some pr.maxThreadsDim.1 ∧
          m._max_griddim[d]? = some pr.maxGridSize.1 ∧ m._major[d]? = some pr.major ∧
          m._minor[d]? = some pr.minor :=
  construction_is_atomic envPropFail envOk { _instance := none, rt := rt0 } 2 1 rfl (by decide)
    rfl rfl (by decide) (Or.inr rfl) rfl rfl (fun _ _ => rfl) (fun _ _ => ⟨sampleProp, rfl⟩)

/-- C9: when the count query, the current-device query and every selection and
property query of the loop succeed, the constructor selects every ordinal below
`n` and then issues `cudaSetDevice` for the device that was current before: if
that call succeeds the constructor returns with the current device as it was
before, and if it fails the constructor throws `cuda_error`. -/
theorem ctor_restores_device (env : Env) (rt : Runtime) (n : Nat)
    (hc : env.cudaGetDeviceCount = some n) (hg : env.cudaGetDevice = true)
    (hloop : ∀ j, j < n →
      env.cudaSetDevice j j = true ∧ ∃ q, env.cudaGetDeviceProperties j = some q) :
    ∃ (m : cudaDeviceManager) (rt1 : Runtime), (∀ j, j < n → Call.cudaSetDevice j ∈ rt1.trace) ∧
      ctor env rt =
        if env.cudaSetDevice n rt.current then
          Result.ret m
            { current := rt.current, trace := rt1.trace ++ [Call.cudaSetDevice rt.current] }
        else
          Result.thrown (Exn.cuda_error "Error: unable to restore device no")
            { current := rt1.current, trace := rt1.trace ++ [Call.cudaSetDevice rt.current] } := by
  obtain ⟨m, rt1, hl⟩ := ctorLoop_ok env n 0 (freshManager n)
    ((rt.call Call.atexit).call Call.cudaGetDeviceCount |>.call Call.cudaGetDevice)
    (fun j _ h2 => hloop j (by omega))
  have htr := (ctorLoop_trace env _ _ _ _ _ _ hl).2
  refine ⟨m, rt1, fun j hj => htr j (Nat.zero_le _) (by omega), ?_⟩
  simp only [ctor, hc, hg, if_true, hl]
  rfl

theorem ctor_restores_device_witness :
    (∃ (m : cudaDeviceManager) (rt1 : Runtime), (∀ j, j < 2 → Call.cudaSetDevice j ∈ rt1.trace) ∧
      ctor envOk { current := 1, trace := [] } =
        if envOk.cudaSetDevice 2 1 then
          Result.ret m { current := 1, trace := rt1.trace ++ [Call.cudaSetDevice 1] }
        else
          Result.thrown (Exn.cuda_error "Error: unable to restore device no")
            { current := rt1.current, trace := rt1.trace ++ [Call.cudaSetDevice 1] }) ∧
    (∃ (m : cudaDeviceManager) (rt1 : Runtime), (∀ j, j < 2 → Call.cudaSetDevice j ∈ rt1.trace) ∧
      ctor envRestoreFail { current := 1, trace := [] } =
        if envRestoreFail.cudaSetDevice 2 1 then
          Result.ret m { current := 1, trace := rt1.trace ++ [Call.cudaSetDevice 1] }
        else
          Result.thrown (Exn.cuda_error "Error: unable to restore device no")
            { current := rt1.current, trace := rt1.trace ++ [Call.cudaSetDevice 1] }) :=
  ⟨ctor_restores_device envOk { current := 1, trace := [] } 2 rfl rfl
      (fun _ _ => ⟨rfl, sampleProp, rfl⟩),
   ctor_restores_device envRestoreFail { current := 1, trace := [] } 2 rfl rfl
      (fun j hj => ⟨by simp [envRestoreFail]; omega, sampleProp, rfl⟩)⟩

/-- C10: over `n` devices with `k < n`, when the loop of the constructor gets
through the ordinals below `k`, `cudaSetDevice(k)` succeeds and
`cudaGetDeviceProperties` fails for `k`, the failed `Instance()` throws with
`cudaSetDevice(k)` as the last selection issued (only the property query
follows it in the trace), so the current device is left at `k`, and
`_instance` stays null. -/
theorem failed_construction_leaves_device (env : Env) (p : Process) (n k : Nat)
    (hp : p._instance = none) (hc : env.cudaGetDeviceCount = some n)
    (hg : env.cudaGetDevice = true) (hk : k < n)
    (hprev : ∀ j, j < k →
      env.cudaSetDevice j j = true ∧ ∃ q, env.cudaGetDeviceProperties j = some q)
    (hset : env.cudaSetDevice k k = true) (hprop : env.cudaGetDeviceProperties k = none) :
    ∃ pre, p.rt.trace <+: pre ∧ Instance env p =
      Result.thrown (Exn.cuda_error "Error: unable to determine device properties.")
        { _instance := none,
          rt := { current := k,
                  trace := pre ++ [Call.cudaSetDevice k, Call.cudaGetDeviceProperties k] } } := by
  obtain ⟨pre, hpre, hl⟩ := ctorLoop_fails_at env n 0 (freshManager n)
    ((p.rt.call Call.atexit).call Call.cudaGetDeviceCount |>.call Call.cudaGetDevice) k
    (Nat.zero_le _) (by omega) (fun j _ h2 => hprev j h2) hset hprop
  refine ⟨pre, List.IsPrefix.trans ?_ hpre, ?_⟩
  · simp [Runtime.call]
  · simp only [Instance, hp, newInstance, ctor, hc, hg, if_true, hl]

theorem failed_construction_leaves_device_witness :
    ∃ pre, ({ current := 0, trace := [] } : Runtime).trace <+: pre ∧
      Instance envPropFail { _instance := none, rt := { current := 0, trace := [] } } =
      Result.thrown (Exn.cuda_error "Error: unable to determine device properties.")
        { _instance := none,
          rt := { current := 1,
                  trace := pre ++ [Call.cudaSetDevice 1, Call.cudaGetDeviceProperties 1] } } :=
  failed_construction_leaves_device envPropFail
    { _instance := none, rt := { current := 0, trace := [] } } 2 1 rfl rfl rfl (by decide)
    (fun j hj => by
      have : j = 0 := by omega
      subst this
      exact ⟨rfl, sampleProp, rfl⟩)
    rfl rfl


/-! ## Locking and unlocking a handle -/

theorem getElem?_set_of_some {α : Type} (l : List α) (i : Nat) (a b : α) (h : l[i]? = some b) :
    (l.set i a)[i]? = some a := by
  have hi : i < l.length := by
    by_contra hc
    rw [List.getElem?_eq_none (by omega)] at h
    cases h
  simp [List.getElem?_set, hi]

theorem lockHandle_creates (env : Env) (d h : Nat) (s : State)
    (hm : s.mgr._mutex[d]? = some false) (hh : s.mgr._handle[d]? = some 0)
    (hc : env.cublasCreate = (0, h)) :
    lockHandle env d s = Result.ret h
      { mgr := { s.mgr with _mutex := s.mgr._mutex.set d true, _handle := s.mgr._handle.set d h }
        rt := (s.rt.call (Call.cublasCreate d)).call (Call.cublasSetPointerMode h) } := by
  simp [lockHandle, hm, hh, hc]

theorem lockHandle_reuses (env : Env) (d h : Nat) (s : State)
    (hm : s.mgr._mutex[d]? = some false) (hh : s.mgr._handle[d]? = some h) (hne : h ≠ 0) :
    lockHandle env d s = Result.ret h
      { mgr := { s.mgr with _mutex := s.mgr._mutex.set d true }, rt := s.rt } := by
  simp [lockHandle, hm, hh, hne]

theorem lockHandle_throws (env : Env) (d : Nat) (s : State)
    (hm : s.mgr._mutex[d]? = some false) (hh : s.mgr._handle[d]? = some 0)
    (hf : env.cublasCreate.1 ≠ 0) :
    lockHandle env d s =
      Result.thrown (Exn.cuda_error (createErrorText env d env.cublasCreate.1))
        { mgr := { s.mgr with _mutex := s.mgr._mutex.set d true }
          rt := s.rt.call (Call.cublasCreate d) } := by
  simp [lockHandle, hm, hh, hf]

theorem lockHandle_blocks (env : Env) (d : Nat) (s : State)
    (hm : s.mgr._mutex[d]? = some true) : lockHandle env d s = Result.blocked := by
  simp [lockHandle, hm]

theorem unlockHandle_releases (d : Nat) (s : State) (hm : s.mgr._mutex[d]? = some true) :
    unlockHandle d s =
      Result.ret () { s with mgr := { s.mgr with _mutex := s.mgr._mutex.set d false } } := by
  simp [unlockHandle, hm]

/-- Every round of `lockUnlockN` after the first creation: the state before the
round, the state between its `lockHandle` and its `unlockHandle`, and the state
after it. -/
theorem lockUnlockN_rounds (envs : Nat → Env) (d h : Nat) (s : State)
    (hm : s.mgr._mutex[d]? = some false) (hh : s.mgr._handle[d]? = some 0)
    (hc : (envs 0).cublasCreate = (0, h)) (hne : h ≠ 0) :
    ∀ k, ∃ hs sPrev sMid s',
      lockUnlockN envs d k s = Result.ret hs sPrev ∧
      lockHandle (envs k) d sPrev = Result.ret h sMid ∧
      sMid.mgr._handle[d]? = some h ∧
      unlockHandle d sMid = Result.ret () s' ∧
      lockUnlockN envs d (k + 1) s = Result.ret (List.replicate (k + 1) h) s' ∧
      s'.mgr._handle[d]? = some h ∧ s'.mgr._mutex[d]? = some false ∧
      s'.rt.trace.count (Call.cublasCreate d) = s.rt.trace.count (Call.cublasCreate d) + 1 := by
  intro k
  induction k with
  | zero =>
    have hl := lockHandle_creates (envs 0) d h s hm hh hc
    have hmid : ({ s.mgr with _mutex := s.mgr._mutex.set d true,
                              _handle := s.mgr._handle.set d h } : cudaDeviceManager)._mutex[d]?
        = some true := getElem?_set_of_some _ _ _ _ hm
    have hu := unlockHandle_releases d
      { mgr := { s.mgr with _mutex := s.mgr._mutex.set d true, _handle := s.mgr._handle.set d h }
        rt := (s.rt.call (Call.cublasCreate d)).call (Call.cublasSetPointerMode h) } hmid
    refine ⟨[], s, _, _, rfl, hl, getElem?_set_of_some _ _ _ _ hh, hu, ?_,
      getElem?_set_of_some _ _ _ _ hh, getElem?_set_of_some _ _ _ _ hmid, ?_⟩
    · simp only [lockUnlockN, lockUnlock, hl, hu]
      rfl
    · simp [Runtime.call, List.count_append]
  | succ k ih =>
    obtain ⟨hs, sPrev, sMid, s1, _, _, _, _, hrun, hh1, hm1, hcount⟩ := ih
    have hl := lockHandle_reuses (envs (k + 1)) d h s1 hm1 hh1 hne
    have hmid : ({ s1.mgr with _mutex := s1.mgr._mutex.set d true } : cudaDeviceManager)._mutex[d]?
        = some true := getElem?_set_of_some _ _ _ _ hm1
    have hu := unlockHandle_releases d
      { mgr := { s1.mgr with _mutex := s1.mgr._mutex.set d true }, rt := s1.rt } hmid
    refine ⟨_, s1, _, _, hrun, hl, hh1, hu, ?_, hh1, getElem?_set_of_some _ _ _ _ hmid, hcount⟩
    rw [lockUnlockN, hrun]
    simp only [lockUnlock, hl, hu]
    rw [List.replicate_succ' (k + 1) h]


/-- C1: from a manager whose slot `d` has a null handle and a free mutex, with
`cublasCreate` succeeding with a non-null handle `h`, `n ≥ 1` rounds of
`lockHandle(d); unlockHandle(d)` all return `h`, issue exactly one
`cublasCreate` call for `d`, and slot `d` holds `h` between the `lockHandle`
and the `unlockHandle` of the last round and after it (so, `n` being any
number of rounds, after every call from the first on). -/
theorem lockHandle_creates_handle_once (envs : Nat → Env) (d h n : Nat) (s : State)
    (hn : 1 ≤ n) (hm : s.mgr._mutex[d]? = some false) (hh : s.mgr._handle[d]? = some 0)
    (hc : (envs 0).cublasCreate = (0, h)) (hne : h ≠ 0) :
    ∃ hs sPrev sMid s',
      lockUnlockN envs d (n - 1) s = Result.ret hs sPrev ∧
      lockHandle (envs (n - 1)) d sPrev = Result.ret h sMid ∧
      sMid.mgr._handle[d]? = some h ∧
      unlockHandle d sMid = Result.ret () s' ∧
      lockUnlockN envs d n s = Result.ret (List.replicate n h) s' ∧
      s'.mgr._handle[d]? = some h ∧ s'.mgr._mutex[d]? = some false ∧
      s'.rt.trace.count (Call.cublasCreate d) = s.rt.trace.count (Call.cublasCreate d) + 1 := by
  obtain ⟨k, rfl⟩ : ∃ k, n = k + 1 := ⟨n - 1, by omega⟩
  exact lockUnlockN_rounds envs d h s hm hh hc hne k

theorem lockHandle_creates_handle_once_witness :
    ∃ hs sPrev sMid s',
      lockUnlockN (fun _ => envOk) 1 (3 - 1) state2 = Result.ret hs sPrev ∧
      lockHandle envOk 1 sPrev = Result.ret 7 sMid ∧
      sMid.mgr._handle[1]? = some 7 ∧
      unlockHandle 1 sMid = Result.ret () s' ∧
      lockUnlockN (fun _ => envOk) 1 3 state2 = Result.ret (List.replicate 3 7) s' ∧
      s'.mgr._handle[1]? = some 7 ∧ s'.mgr._mutex[1]? = some false ∧
      s'.rt.trace.count (Call.cublasCreate 1) = state2.rt.trace.count (Call.cublasCreate 1) + 1 :=
  lockHandle_creates_handle_once (fun _ => envOk) 1 7 3 state2 (by decide) rfl rfl rfl (by decide)

/-- C2: from a slot `d` with a null handle and a free mutex, when `cublasCreate`
reports a status other than success, `lockHandle(d)` throws `cuda_error` after
one `cublasCreate` call, the mutex of `d` is held afterwards (a further
`lockHandle(d)` blocks), the handle of `d` is still null, and after
`unlockHandle(d)` a further `lockHandle(d)` calls `cublasCreate` again,
whatever the runtime then answers. -/
theorem lockHandle_creation_failure (env : Env) (d : Nat) (s : State)
    (hm : s.mgr._mutex[d]? = some false) (hh : s.mgr._handle[d]? = some 0)
    (hf : env.cublasCreate.1 ≠ 0) :
    ∃ what s1, lockHandle env d s = Result.thrown (Exn.cuda_error what) s1 ∧
      s1.mgr._mutex[d]? = some true ∧ s1.mgr._handle[d]? = some 0 ∧
      s1.rt.trace = s.rt.trace ++ [Call.cublasCreate d] ∧
      (∀ env2, lockHandle env2 d s1 = Result.blocked) ∧
      ∃ s2, unlockHandle d s1 = Result.ret () s2 ∧ s2.mgr._mutex[d]? = some false ∧
        s2.mgr._handle[d]? = some 0 ∧ s2.rt = s1.rt ∧
        ∀ env2, ∃ s3, (lockHandle env2 d s2).after = some s3 ∧
          s2.rt.trace ++ [Call.cublasCreate d] <+: s3.rt.trace := by
  have hl := lockHandle_throws env d s hm hh hf
  have hm1 : ({ s.mgr with _mutex := s.mgr._mutex.set d true } : cudaDeviceManager)._mutex[d]?
      = some true := getElem?_set_of_some _ _ _ _ hm
  have hu := unlockHandle_releases d
    { mgr := { s.mgr with _mutex := s.mgr._mutex.set d true }
      rt := s.rt.call (Call.cublasCreate d) } hm1
  refine ⟨_, _, hl, hm1, hh, rfl, fun env2 => lockHandle_blocks env2 d _ hm1, _, hu,
    getElem?_set_of_some _ _ _ _ hm1, hh, rfl, fun env2 => ?_⟩
  have hm2 : ({ mgr := { ({ s.mgr with _mutex := s.mgr._mutex.set d true } : cudaDeviceManager) with
                         _mutex := (s.mgr._mutex.set d true).set d false },
                rt := s.rt.call (Call.cublasCreate d) } : State).mgr._mutex[d]? = some false :=
    getElem?_set_of_some _ _ _ _ hm1
  by_cases hc : env2.cublasCreate.1 = 0
  · have hl2 := lockHandle_creates env2 d env2.cublasCreate.2 _ hm2 hh
      (by rw [← hc])
    rw [hl2]
    exact ⟨_, rfl, by simp [Runtime.call]⟩
  · have hl2 := lockHandle_throws env2 d _ hm2 hh hc
    rw [hl2]
    exact ⟨_, rfl, by simp [Runtime.call]⟩

theorem lockHandle_creation_failure_witness :
    ∃ what s1, lockHandle envCreateFail 1 state2 = Result.thrown (Exn.cuda_error what) s1 ∧
      s1.mgr._mutex[1]? = some true ∧ s1.mgr._handle[1]? = some 0 ∧
      s1.rt.trace = state2.rt.trace ++ [Call.cublasCreate 1] ∧
      (∀ env2, lockHandle env2 1 s1 = Result.blocked) ∧
      ∃ s2, unlockHandle 1 s1 = Result.ret () s2 ∧ s2.mgr._mutex[1]? = some false ∧
        s2.mgr._handle[1]? = some 0 ∧ s2.rt = s1.rt ∧
        ∀ env2, ∃ s3, (lockHandle env2 1 s2).after = some s3 ∧
          s2.rt.trace ++ [Call.cublasCreate 1] <+: s3.rt.trace :=
  lockHandle_creation_failure envCreateFail 1 state2 rfl rfl (by decide)

/-! ## Memory queries on a named device -/

/-- When `getFreeMemory(device)` or `getTotalMemory(device)` returns a value,
the current device is the one it was before the call. -/
theorem memOnDevice_ret_current (env : Env) (query : Env → State → Result State Nat)
    (device : Nat) (s s' : State) (r : Nat)
    (h : memOnDevice env query device s = Result.ret r s') : s'.rt.current = s.rt.current := by
  simp only [memOnDevice, CUDA_CALL] at h
  split at h
  · split at h
    · split at h
      · split at h
        · simp only [Result.ret.injEq] at h
          rw [← h.2]
          rfl
        · cases h
      · rename_i other hne
        rw [h] at hne
        exact absurd rfl (hne r s')
    · cases h
  · cases h

/-- C4, the code at a failing input: with device 0 current, `getFreeMemory(1)`
and `getTotalMemory(1)` on a runtime whose `cudaMemGetInfo` fails throw after
`cudaSetDevice(1)` and issue no second `cudaSetDevice`; the current device is
left at 1. -/
theorem memory_query_failure_leaves_device :
    state2.rt.current = 0 ∧
    getFreeMemory envMemFail 1 state2 =
      Result.thrown (Exn.cuda_error "unspecified launch failure")
        { mgr := mgr2,
          rt := { current := 1,
                  trace := [Call.cudaGetDevice, Call.cudaSetDevice 1, Call.cudaMemGetInfo] } } ∧
    getTotalMemory envMemFail 1 state2 =
      Result.thrown (Exn.cuda_error "unspecified launch failure")
        { mgr := mgr2,
          rt := { current := 1,
                  trace := [Call.cudaGetDevice, Call.cudaSetDevice 1, Call.cudaMemGetInfo] } } :=
  ⟨rfl, rfl, rfl⟩


/-! ## The capability data never changes -/

theorem lockHandle_capabilities (env : Env) (d : Nat) (s s' : State)
    (h : (lockHandle env d s).after = some s') : capabilities s'.mgr = capabilities s.mgr := by
  simp only [lockHandle] at h
  split at h
  · cases h
  · cases h
  · split at h
    · cases h
    · split at h
      · split at h
        · simp only [Result.after, Option.some.injEq] at h
          rw [← h]; rfl
        · simp only [Result.after, Option.some.injEq] at h
          rw [← h]; rfl
      · simp only [Result.after, Option.some.injEq] at h
        rw [← h]; rfl

theorem unlockHandle_capabilities (d : Nat) (s s' : State)
    (h : (unlockHandle d s).after = some s') : capabilities s'.mgr = capabilities s.mgr := by
  simp only [unlockHandle] at h
  split at h
  · simp only [Result.after, Option.some.injEq] at h
    rw [← h]; rfl
  · cases h

theorem memGetInfo_mgr (env : Env) (pick : Nat × Nat → Nat) (s s' : State)
    (h : (memGetInfo env pick s).after = some s') : s'.mgr = s.mgr := by
  simp only [memGetInfo] at h
  split at h <;>
    · simp only [Result.after, Option.some.injEq] at h
      rw [← h]

theorem memOnDevice_mgr (env : Env) (pick : Nat × Nat → Nat) (device : Nat) (s s' : State)
    (h : (memOnDevice env (fun e t => memGetInfo e pick t) device s).after = some s') :
    s'.mgr = s.mgr := by
  simp only [memOnDevice, CUDA_CALL, memGetInfo] at h
  split at h
  · split at h
    · cases hq : env.cudaMemGetInfo with
      | none =>
        simp only [hq, Result.after, Option.some.injEq] at h
        rw [← h]
      | some info =>
        simp only [hq] at h
        split at h <;>
          · simp only [Result.after, Option.some.injEq] at h
            rw [← h]
    · simp only [Result.after, Option.some.injEq] at h
      rw [← h]
  · simp only [Result.after, Option.some.injEq] at h
    rw [← h]

theorem callOp_capabilities (env : Env) (op : Op) (s s' : State)
    (h : callOp env op s = some s') : capabilities s'.mgr = capabilities s.mgr := by
  cases op with
  | lockHandle d => exact lockHandle_capabilities env d s s' h
  | lockHandle0 =>
    simp only [callOp, lockHandle0, CUDA_CALL] at h
    split at h
    · exact lockHandle_capabilities env _ { mgr := s.mgr, rt := s.rt.call Call.cudaGetDevice } s' h
    · simp only [Result.after, Option.some.injEq] at h
      rw [← h]
  | unlockHandle d => exact unlockHandle_capabilities d s s' h
  | unlockHandle0 =>
    simp only [callOp, unlockHandle0, CUDA_CALL] at h
    split at h
    · exact unlockHandle_capabilities _ { mgr := s.mgr, rt := s.rt.call Call.cudaGetDevice } s' h
    · simp only [Result.after, Option.some.injEq] at h
      rw [← h]
  | getFreeMemory d => rw [memOnDevice_mgr env Prod.fst d s s' h]
  | getFreeMemory0 => rw [memGetInfo_mgr env Prod.fst s s' h]
  | getTotalMemory d => rw [memOnDevice_mgr env Prod.snd d s s' h]
  | getTotalMemory0 => rw [memGetInfo_mgr env Prod.snd s s' h]

theorem runOps_capabilities : ∀ (ops : List (Env × Op)) (s s' : State),
    runOps ops s = some s' → capabilities s'.mgr = capabilities s.mgr := by
  intro ops
  induction ops with
  | nil =>
    intro s s' h
    simp only [runOps, Option.some.injEq] at h
    rw [h]
  | cons eo rest ih =>
    intro s s' h
    obtain ⟨env, op⟩ := eo
    simp only [runOps] at h
    cases hc : callOp env op s with
    | none => simp [hc] at h
    | some s1 =>
      simp only [hc] at h
      rw [ih s1 s' h, callOp_capabilities env op s s1 hc]

theorem readCurrent_eq (env : Env) (field : cudaDeviceManager → List Int) (s : State) (v : Int)
    (hg : env.cudaGetDevice = true) (hv : (field s.mgr)[s.rt.current]? = some v) :
    readCurrent env field s =
      Result.ret v { mgr := s.mgr,
                     rt := { current := s.rt.current, trace := s.rt.trace ++ [Call.cudaGetDevice] } } := by
  have hv2 : (field s.mgr)[(s.rt.call Call.cudaGetDevice).current]? = some v := hv
  simp only [readCurrent, CUDA_CALL, hg, if_true, hv2]
  rfl

/-- C7: after a successful construction over `n` devices, in every state reached
by a sequence of `lockHandle`, `unlockHandle`, `getFreeMemory` and
`getTotalMemory` calls (with or without a device argument, against any runtime
behaviour), if the runtime reports a current device `d < n`, the five accessors
return `warpSize`, `maxThreadsDim[0]`, `maxGridSize[0]`, `major` and `minor` of
the properties the runtime reported for `d` at construction, and leave the
manager and the current device as they were, their one `cudaGetDevice` call
aside. -/
theorem capabilities_match_construction (env0 env : Env) (rtA rtB : Runtime)
    (m0 : cudaDeviceManager) (n : Nat) (ops : List (Env × Op)) (s : State)
    (hn : env0.cudaGetDeviceCount = some n) (hctor : ctor env0 rtA = Result.ret m0 rtB)
    (hrun : runOps ops { mgr := m0, rt := rtB } = some s)
    (hg : env.cudaGetDevice = true) (hd : s.rt.current < n) :
    ∃ p s', env0.cudaGetDeviceProperties s.rt.current = some p ∧
      s' = { mgr := s.mgr,
             rt := { current := s.rt.current, trace := s.rt.trace ++ [Call.cudaGetDevice] } } ∧
      warp_size env s = Result.ret p.warpSize s' ∧
      max_blockdim env s = Result.ret p.maxThreadsDim.1 s' ∧
      max_griddim env s = Result.ret p.maxGridSize.1 s' ∧
      major_version env s = Result.ret p.major s' ∧
      minor_version env s = Result.ret p.minor s' := by
  have hcap := runOps_capabilities ops _ s hrun
  simp only [capabilities, Prod.mk.injEq] at hcap
  obtain ⟨_, hw, hb, hgr, hma, hmi⟩ := hcap
  obtain ⟨_, _, _, hspec⟩ := ctor_ret_spec env0 rtA rtB m0 n hn hctor
  obtain ⟨p, hp, h1, h2, h3, h4, h5⟩ := hspec s.rt.current hd
  refine ⟨p, _, hp, rfl, ?_, ?_, ?_, ?_, ?_⟩
  · exact readCurrent_eq env _ s _ hg (by rw [hw]; exact h1)
  · exact readCurrent_eq env _ s _ hg (by rw [hb]; exact h2)
  · exact readCurrent_eq env _ s _ hg (by rw [hgr]; exact h3)
  · exact readCurrent_eq env _ s _ hg (by rw [hma]; exact h4)
  · exact readCurrent_eq env _ s _ hg (by rw [hmi]; exact h5)

theorem capabilities_match_construction_witness :
    ∃ p s', envOne.cudaGetDeviceProperties stateOne.rt.current = some p ∧
      s' = { mgr := stateOne.mgr,
             rt := { current := stateOne.rt.current,
                     trace := stateOne.rt.trace ++ [Call.cudaGetDevice] } } ∧
      warp_size envOk stateOne = Result.ret p.warpSize s' ∧
      max_blockdim envOk stateOne = Result.ret p.maxThreadsDim.1 s' ∧
      max_griddim envOk stateOne = Result.ret p.maxGridSize.1 s' ∧
      major_version envOk stateOne = Result.ret p.major s' ∧
      minor_version envOk stateOne = Result.ret p.minor s' :=
  capabilities_match_construction envOne envOk rt0 rtOne mgrOne 1 opsOne stateOne rfl rfl rfl rfl
    (by decide)


/-! ## Teardown -/

theorem dtorLoop_trace (m : cudaDeviceManager) : ∀ (k device : Nat) (rt : Runtime),
    device + k ≤ m._handle.length →
    dtorLoop k device m rt = Result.ret ()
      { current := rt.current,
        trace := rt.trace ++
          ((List.range' device k).filter (fun d => m._handle.getD d 0 ≠ 0)).map
            (fun d => Call.cublasDestroy (m._handle.getD d 0)) } := by
  intro k
  induction k with
  | zero => intro device rt _; simp [dtorLoop]
  | succ k ih =>
    intro device rt hlen
    have hd : device < m._handle.length := by omega
    have hget : m._handle[device]? = some (m._handle.getD device 0) := by
      simp [List.getD, List.getElem?_eq_getElem hd]
    simp only [dtorLoop, hget]
    by_cases hz : m._handle.getD device 0 = 0
    · have hz2 : m._handle[device]?.getD 0 = 0 := by simpa using hz
      simp only [hz, ne_eq, not_true_eq_false, if_false]
      rw [ih (device + 1) rt (by omega)]
      simp [List.range'_succ, List.filter_cons, hz2]
    · have hz2 : ¬ m._handle[device]?.getD 0 = 0 := by simpa using hz
      simp only [ne_eq, hz, not_false_eq_true, if_true]
      rw [ih (device + 1) _ (by omega)]
      simp [List.range'_succ, List.filter_cons, hz2, Runtime.call]

/-- C8: for a manager whose handle vector has one entry per device, `CleanUp()`
returns after issuing, in device order, one `cublasDestroy` call for each device
whose handle is not null, with that handle as argument, and none for a device
whose handle is null; it clears `_instance`, and a second `CleanUp()` issues no
call at all. -/
theorem CleanUp_destroys_created_handles (m : cudaDeviceManager) (rt : Runtime)
    (hwf : m._handle.length = m._num_devices) :
    ∃ p', CleanUp { _instance := some m, rt := rt } = Result.ret () p' ∧
      p'._instance = none ∧ p'.rt.current = rt.current ∧
      p'.rt.trace = rt.trace ++
        ((List.range m._num_devices).filter (fun d => m._handle.getD d 0 ≠ 0)).map
          (fun d => Call.cublasDestroy (m._handle.getD d 0)) ∧
      CleanUp p' = Result.ret () p' := by
  have h := dtorLoop_trace m m._num_devices 0 rt (by omega)
  refine ⟨{ _instance := none,
            rt := { current := rt.current,
                    trace := rt.trace ++
                      ((List.range' 0 m._num_devices).filter (fun d => m._handle.getD d 0 ≠ 0)).map
                        (fun d => Call.cublasDestroy (m._handle.getD d 0)) } }, ?_, rfl, rfl, ?_, rfl⟩
  · simp only [CleanUp, dtor, h]
  · rw [List.range_eq_range']

theorem CleanUp_destroys_created_handles_witness :
    ∃ p', CleanUp { _instance := some { mgr2 with _handle := [0, 9] }, rt := rt0 } =
        Result.ret () p' ∧
      p'._instance = none ∧ p'.rt.current = rt0.current ∧
      p'.rt.trace = rt0.trace ++
        ((List.range ({ mgr2 with _handle := [0, 9] } : cudaDeviceManager)._num_devices).filter
            (fun d => ({ mgr2 with _handle := [0, 9] } : cudaDeviceManager)._handle.getD d 0 ≠ 0)).map
          (fun d => Call.cublasDestroy
            (({ mgr2 with _handle := [0, 9] } : cudaDeviceManager)._handle.getD d 0)) ∧
      CleanUp p' = Result.ret () p' :=
  CleanUp_destroys_created_handles { mgr2 with _handle := [0, 9] } rt0 rfl


/-! ## Two threads on one device -/

theorem lockHandle_acquires (env : Env) (d : Nat) (s : State)
    (hm : s.mgr._mutex[d]? = some false) (hd : d < s.mgr._handle.length) :
    ∃ s', ((∃ h, lockHandle env d s = Result.ret h s') ∨
           (∃ e, lockHandle env d s = Result.thrown e s')) ∧
      s'.mgr._mutex[d]? = some true ∧ s'.mgr._handle.length = s.mgr._handle.length := by
  have hm1 : (s.mgr._mutex.set d true)[d]? = some true := getElem?_set_of_some _ _ _ _ hm
  have hh : s.mgr._handle[d]? = some s.mgr._handle[d] := List.getElem?_eq_getElem hd
  by_cases h0 : s.mgr._handle[d] = 0
  · rw [h0] at hh
    by_cases hc : env.cublasCreate.1 = 0
    · refine ⟨_, Or.inl ⟨_, lockHandle_creates env d env.cublasCreate.2 s hm hh (by rw [← hc])⟩,
        hm1, ?_⟩
      simp
    · exact ⟨_, Or.inr ⟨_, lockHandle_throws env d s hm hh hc⟩, hm1, rfl⟩
  · exact ⟨_, Or.inl ⟨_, lockHandle_reuses env d _ s hm hh h0⟩, hm1, rfl⟩

theorem callNext_spec (env : Env) (d : Nat) (q : Pc) (o : Bool) (s : State)
    (hd : d < s.mgr._handle.length) (hmx : s.mgr._mutex[d]? = some (q.owns || o))
    (hex : (q.owns && o) = false) :
    (callNext env d q s).2.2 = false ∧
    d < (callNext env d q s).2.1.mgr._handle.length ∧
    (callNext env d q s).2.1.mgr._mutex[d]? = some ((callNext env d q s).1.owns || o) ∧
    ((callNext env d q s).1.owns && o) = false := by
  cases q with
  | idle =>
    cases o with
    | true =>
      have hr : callNext env d Pc.idle s = (Pc.idle, s, false) := by
        simp only [callNext, lockHandle_blocks env d s hmx]
      rw [hr]
      exact ⟨rfl, hd, hmx, rfl⟩
    | false =>
      obtain ⟨s', hl, hm', hlen⟩ := lockHandle_acquires env d s hmx hd
      rcases hl with ⟨h, hl⟩ | ⟨e, hl⟩
      · have hr : callNext env d Pc.idle s = (Pc.holding h, s', false) := by
          simp only [callNext, hl]
        rw [hr]
        exact ⟨rfl, by rw [hlen]; exact hd, hm', rfl⟩
      · have hr : callNext env d Pc.idle s = (Pc.failed, s', false) := by
          simp only [callNext, hl]
        rw [hr]
        exact ⟨rfl, by rw [hlen]; exact hd, hm', rfl⟩
  | holding h =>
    cases o with
    | true => cases hex
    | false =>
      have hr : callNext env d (Pc.holding h) s =
          (Pc.done, { s with mgr := { s.mgr with _mutex := s.mgr._mutex.set d false } }, false) := by
        simp only [callNext, unlockHandle_releases d s hmx]
      rw [hr]
      exact ⟨rfl, hd, getElem?_set_of_some _ _ _ _ hmx, rfl⟩
  | failed =>
    cases o with
    | true => cases hex
    | false =>
      have hr : callNext env d Pc.failed s =
          (Pc.done, { s with mgr := { s.mgr with _mutex := s.mgr._mutex.set d false } }, false) := by
        simp only [callNext, unlockHandle_releases d s hmx]
      rw [hr]
      exact ⟨rfl, hd, getElem?_set_of_some _ _ _ _ hmx, rfl⟩
  | done => exact ⟨rfl, hd, hmx, hex⟩

theorem threadStep_consistent (env : Env) (d : Nat) (t : Bool) (c : Threads)
    (hc : c.consistent d) : (threadStep env d t c).consistent d := by
  obtain ⟨hub, hd, hmx, hex⟩ := hc
  cases t with
  | false =>
    obtain ⟨h1, h2, h3, h4⟩ := callNext_spec env d c.pc0 c.pc1.owns c.shared hd hmx hex
    refine ⟨?_, h2, h3, h4⟩
    show (c.ub || (callNext env d c.pc0 c.shared).2.2) = false
    rw [hub, h1]; rfl
  | true =>
    obtain ⟨h1, h2, h3, h4⟩ := callNext_spec env d c.pc1 c.pc0.owns c.shared hd
      (by rw [Bool.or_comm]; exact hmx) (by rw [Bool.and_comm]; exact hex)
    refine ⟨?_, h2, ?_, ?_⟩
    · show (c.ub || (callNext env d c.pc1 c.shared).2.2) = false
      rw [hub, h1]; rfl
    · show (callNext env d c.pc1 c.shared).2.1.mgr._mutex[d]? =
        some (c.pc0.owns || (callNext env d c.pc1 c.shared).1.owns)
      rw [Bool.or_comm]; exact h3
    · show (c.pc0.owns && (callNext env d c.pc1 c.shared).1.owns) = false
      rw [Bool.and_comm]; exact h4

theorem runThreads_consistent (d : Nat) : ∀ (sched : List (Bool × Env)) (c : Threads),
    c.consistent d → (runThreads d sched c).consistent d := by
  intro sched
  induction sched with
  | nil => intro c hc; exact hc
  | cons te rest ih =>
    intro c hc
    obtain ⟨t, env⟩ := te
    exact ih _ (threadStep_consistent env d t c hc)

theorem Pc.owns_of_inWindow (q : Pc) (h : q.inWindow = true) : q.owns = true := by
  cases q <;> simp_all [Pc.inWindow, Pc.owns]

/-- C3: two threads each call `lockHandle(d)` and later `unlockHandle(d)` on a
device whose mutex is free at the start.  After any interleaving of their
calls, the two are not both back from `lockHandle(d)` with `unlockHandle(d)`
still to come; while one of them is, a `lockHandle(d)` blocks, whatever the
runtime answers; and no call had undefined behaviour. -/
theorem lockHandle_mutual_exclusion (d : Nat) (s0 : State) (sched : List (Bool × Env))
    (hm : s0.mgr._mutex[d]? = some false) (hd : d < s0.mgr._handle.length) :
    ((runThreads d sched (Threads.start s0)).pc0.inWindow &&
      (runThreads d sched (Threads.start s0)).pc1.inWindow) = false ∧
    (∀ t env, ((runThreads d sched (Threads.start s0)).pc t).inWindow = true →
      lockHandle env d (runThreads d sched (Threads.start s0)).shared = Result.blocked) ∧
    (runThreads d sched (Threads.start s0)).ub = false := by
  have hstart : (Threads.start s0).consistent d := ⟨rfl, hd, hm, rfl⟩
  obtain ⟨hub, _, hmx, hex⟩ := runThreads_consistent d sched _ hstart
  refine ⟨?_, ?_, hub⟩
  · cases h0 : (runThreads d sched (Threads.start s0)).pc0.inWindow with
    | false => rfl
    | true =>
      cases h1 : (runThreads d sched (Threads.start s0)).pc1.inWindow with
      | false => rfl
      | true =>
        rw [Pc.owns_of_inWindow _ h0, Pc.owns_of_inWindow _ h1] at hex
        cases hex
  · intro t env ht
    apply lockHandle_blocks
    rw [hmx]
    cases t with
    | false =>
      have : (runThreads d sched (Threads.start s0)).pc0.owns = true :=
        Pc.owns_of_inWindow _ ht
      simp [this]
    | true =>
      have : (runThreads d sched (Threads.start s0)).pc1.owns = true :=
        Pc.owns_of_inWindow _ ht
      simp [this]

theorem lockHandle_mutual_exclusion_witness :
    ((runThreads 0 [(true, envOk), (false, envOk), (true, envOk), (false, envOk)]
        (Threads.start state2)).pc0.inWindow &&
      (runThreads 0 [(true, envOk), (false, envOk), (true, envOk), (false, envOk)]
        (Threads.start state2)).pc1.inWindow) = false ∧
    (∀ t env, ((runThreads 0 [(true, envOk), (false, envOk), (true, envOk), (false, envOk)]
        (Threads.start state2)).pc t).inWindow = true →
      lockHandle env 0 (runThreads 0 [(true, envOk), (false, envOk), (true, envOk), (false, envOk)]
        (Threads.start state2)).shared = Result.blocked) ∧
    (runThreads 0 [(true, envOk), (false, envOk), (true, envOk), (false, envOk)]
        (Threads.start state2)).ub = false :=
  lockHandle_mutual_exclusion 0 state2 [(true, envOk), (false, envOk), (true, envOk), (false, envOk)]
    rfl (by decide)

end Gadgetron
